import Mathlib

/-!
Verification of the usb-vpn-router failover core (`usb_vpn_router/monitor.py`,
`usb_vpn_router/config.py`, `usb_vpn_router/utils.py`) against its
natural-language specification.  The shell commands the Python code issues
(`ip`, `iptables`, `ping`) are modelled by explicit environment records that
carry the observable result of each command (its return code, stdout, or a
success flag); the Python functions themselves are embedded as total Lean
functions over those environments, following the source control flow
statement by statement.
-/

namespace UsbVpnRouter

/-- Boolean test: `needle` is a prefix of `hay` (character lists). -/
def isPrefixList : List Char → List Char → Bool
  | [], _ => true
  | _ :: _, [] => false
  | a :: as, b :: bs => a == b && isPrefixList as bs

/-- Boolean test: `needle` occurs contiguously inside `hay` (character lists). -/
def isSubAux : List Char → List Char → Bool
  | needle, [] => needle.isEmpty
  | needle, hay@(_ :: tl) => isPrefixList needle hay || isSubAux needle tl

/-- Python's `needle in hay` substring containment on strings. -/
def strContains (hay needle : String) : Bool :=
  isSubAux needle.data hay.data

/-- Split a character list at every occurrence of `sep` (Python's
`str.split(sep)` / `re.MULTILINE` line structure for `sep = '\n'`). -/
def splitOnCharAux : List Char → Char → List Char → List String
  | [], _, acc => [String.mk acc.reverse]
  | c :: cs, sep, acc =>
    if c == sep then String.mk acc.reverse :: splitOnCharAux cs sep []
    else splitOnCharAux cs sep (c :: acc)

/-- Split a string at every occurrence of the separator character. -/
def splitOnChar (s : String) (sep : Char) : List String :=
  splitOnCharAux s.data sep []

/-- Numeric value of a decimal digit string (Python's `int` on an all-digit
string). -/
def digitsToNat (l : List Char) : Nat :=
  l.foldl (fun acc c => acc * 10 + (c.toNat - 48)) 0

/-- Hard-coded monitor configuration (`VPNMonitor.__init__`). -/
def usb_network : String := "192.168.64.0/24"

/-- Primary backend interface (`VPNMonitor.__init__`). -/
def tailscale_interface : String := "tailscale0"

/-- Secondary backend interface (`VPNMonitor.__init__`). -/
def openvpn_interface : String := "tun0"

/-!  ### 4.1 Connectivity prober — `VPNMonitor.check_interface_connectivity`  -/

/-- Observable outcomes of the three commands issued while probing one
interface.  `Option.none` in a field means the corresponding `run_command`
call raised an exception (non-zero exit with `check=True`, timeout, or any
other `Exception`). -/
structure ProbeEnv where
  /-- Return code of `ip link show IFACE` (`check=False`); `Option.none` if the
  call raised. -/
  linkShow : Option Int
  /-- Stdout of `ip addr show IFACE` (`check=True`); `Option.none` if the call
  raised. -/
  addrShow : Option String
  /-- Return code of `ping -I IFACE -c 1 -W T HOST` (`check=False`);
  `Option.none` if the call raised (e.g. a subprocess-level failure). -/
  ping : Option Int
deriving Repr, DecidableEq

/-- Embedding of `utils.check_interface_exists`: returns the truth of
`returncode == 0`, and `False` if the command raised. -/
def check_interface_exists (e : ProbeEnv) : Bool :=
  match e.linkShow with
  | Option.none => false
  | Option.some rc => rc == 0

/-- Embedding of `VPNMonitor.check_interface_connectivity`: interface must
exist, its `ip addr show` output must contain `"inet "`, and only then is the
ping issued; every exception path returns `false`. -/
def check_interface_connectivity (e : ProbeEnv) : Bool :=
  if !check_interface_exists e then false
  else
    match e.addrShow with
    | Option.none => false
    | Option.some out =>
      if !strContains out "inet " then false
      else
        match e.ping with
        | Option.none => false
        | Option.some rc => rc == 0

/-!  ### 4.2 Routing state reader — `VPNMonitor.get_current_vpn`  -/

/-- The value of `current_vpn`: which backend the policy table currently
routes through (the strings `'tailscale'`, `'openvpn'`, `'none'`). -/
inductive Vpn
  | tailscale
  | openvpn
  | none
deriving Repr, DecidableEq, Fintype

/-- Result of a captured `run_command` call: return code and stdout. -/
structure CmdResult where
  returncode : Int
  stdout : String
deriving Repr, DecidableEq

/-- Embedding of `VPNMonitor.get_current_vpn`.  The argument is the outcome of
`ip route show table usb_vpn` (`Option.none` when the call raised, which the
`except` clause maps to `'none'`).  Python's `result.stdout` truthiness is
non-emptiness; `iface in stdout` is substring containment. -/
def get_current_vpn (res : Option CmdResult) : Vpn :=
  match res with
  | Option.none => Vpn.none
  | Option.some r =>
    if r.returncode == 0 && r.stdout != "" then
      if strContains r.stdout tailscale_interface then Vpn.tailscale
      else if strContains r.stdout openvpn_interface then Vpn.openvpn
      else Vpn.none
    else Vpn.none

/-!  ### 4.3 Route switcher — `VPNMonitor.switch_to_tailscale` /
`VPNMonitor.switch_to_openvpn`

State model: the default route of the dedicated policy table `usb_vpn`
(device plus optional gateway) together with the list of interfaces carrying a
`MASQUERADE` rule for the client subnet `192.168.64.0/24` in the
`nat/POSTROUTING` chain (list order = rule order; `iptables -D` deletes the
first matching rule, `-A` appends, `-C` succeeds iff a matching rule exists).
-/

/-- A default route in the policy table: egress device and optional `via`
gateway. -/
structure Route where
  dev : String
  via : Option String
deriving Repr, DecidableEq

/-- The externally-held routing ground truth for the client subnet. -/
structure RoutingState where
  defaultRoute : Option Route
  natRules : List String
deriving Repr, DecidableEq

/-- Outcomes of the fallible commands inside a switch.  `ip route del`
(`check=False`) and `iptables -D` (`check=False`) never raise; the remaining
`check=True` calls may. -/
structure SwitchEnv where
  /-- Stdout of `ip route show dev tailscale0` (`check=True`);
  `Option.none` if the call raised. -/
  showDevOut : Option String
  /-- Whether `ip route add default … table usb_vpn` succeeds. -/
  addRouteOk : Bool
  /-- Whether `iptables -t nat -A POSTROUTING …` succeeds. -/
  natAddOk : Bool
deriving Repr, DecidableEq

/-- `c` is a digit or a dot — the character class `[\d\.]` of the gateway
regex. -/
def isDigitOrDot (c : Char) : Bool :=
  c.isDigit || c == '.'

/-- Embedding of `re.search(r'^100\.[\d\.]+', out, re.MULTILINE)`: the first
line of `out` that starts with `100.` followed by at least one digit-or-dot
character yields the matched prefix. -/
def extractGateway (out : String) : Option String :=
  (splitOnChar out '\n').findSome? fun line =>
    if isPrefixList ['1', '0', '0', '.'] line.data then
      let rest := (line.data.drop 4).takeWhile isDigitOrDot
      if rest.isEmpty then Option.none
      else Option.some (String.mk (['1', '0', '0', '.'] ++ rest))
    else Option.none

/-- Embedding of `VPNMonitor.switch_to_tailscale`.  Returns the Python
return value (`True` on success, `False` when an exception was caught) and
the routing state as mutated by the commands that ran before the function
returned.  Control flow follows the source: delete the default route
(failure ignored), read the tailscale routes (may raise), add the new default
route via the extracted gateway or device-scoped (may raise), delete the
OpenVPN masquerade rule (failure ignored), then check-before-add the
Tailscale masquerade rule. -/
def switch_to_tailscale (env : SwitchEnv) (s : RoutingState) :
    Bool × RoutingState :=
  let s1 : RoutingState := { s with defaultRoute := Option.none }
  match env.showDevOut with
  | Option.none => (false, s1)
  | Option.some out =>
    if !env.addRouteOk then (false, s1)
    else
      let s2 : RoutingState :=
        { s1 with defaultRoute :=
            Option.some { dev := tailscale_interface, via := extractGateway out } }
      let s3 : RoutingState :=
        { s2 with natRules := s2.natRules.erase openvpn_interface }
      if tailscale_interface ∈ s3.natRules then (true, s3)
      else if env.natAddOk then
        (true, { s3 with natRules := s3.natRules ++ [tailscale_interface] })
      else (false, s3)

/-- Embedding of `VPNMonitor.switch_to_openvpn`: delete the default route
(failure ignored), add a device-scoped default route through `tun0` (may
raise), delete the Tailscale masquerade rule (failure ignored), then
check-before-add the OpenVPN masquerade rule. -/
def switch_to_openvpn (env : SwitchEnv) (s : RoutingState) :
    Bool × RoutingState :=
  let s1 : RoutingState := { s with defaultRoute := Option.none }
  if !env.addRouteOk then (false, s1)
  else
    let s2 : RoutingState :=
      { s1 with defaultRoute :=
          Option.some { dev := openvpn_interface, via := Option.none } }
    let s3 : RoutingState :=
      { s2 with natRules := s2.natRules.erase tailscale_interface }
    if openvpn_interface ∈ s3.natRules then (true, s3)
    else if env.natAddOk then
      (true, { s3 with natRules := s3.natRules ++ [openvpn_interface] })
    else (false, s3)

/-- The successive values of the NAT rule list during
`switch_to_tailscale`, one entry per point between NAT mutations (the route
commands do not touch NAT).  Mirrors the command order of the source. -/
def switch_to_tailscale_natTrace (env : SwitchEnv) (s : RoutingState) :
    List (List String) :=
  match env.showDevOut with
  | Option.none => [s.natRules]
  | Option.some _ =>
    if !env.addRouteOk then [s.natRules]
    else
      let erased := s.natRules.erase openvpn_interface
      if tailscale_interface ∈ erased then [s.natRules, erased]
      else if env.natAddOk then
        [s.natRules, erased, erased ++ [tailscale_interface]]
      else [s.natRules, erased]

/-- The successive values of the NAT rule list during
`switch_to_openvpn`. -/
def switch_to_openvpn_natTrace (env : SwitchEnv) (s : RoutingState) :
    List (List String) :=
  if !env.addRouteOk then [s.natRules]
  else
    let erased := s.natRules.erase tailscale_interface
    if openvpn_interface ∈ erased then [s.natRules, erased]
    else if env.natAddOk then
      [s.natRules, erased, erased ++ [openvpn_interface]]
    else [s.natRules, erased]

/-!  ### 4.4 Failover controller — the decision part of
`VPNMonitor.monitor_loop` -/

/-- Severity of the log message a cycle emits when making its decision
(`_log_with_timestamp` levels). -/
inductive LogLevel
  | info
  | warn
  | error
deriving Repr, DecidableEq

/-- The decision one loop iteration makes: which backend to switch to (if
any) and the log emitted alongside it. -/
structure CycleDecision where
  switchTarget : Option Vpn
  log : Option LogLevel
deriving Repr, DecidableEq

/-- Embedding of the failover branch of `VPNMonitor.monitor_loop`
(lines 175–195): given the freshly read `current_vpn`, `tailscale_up` and
`openvpn_up`, which switch is invoked and what is logged.  The
`current_vpn == 'tailscale'` branch has no clause for both backends down:
nothing is logged there. -/
def cycleDecision : Vpn → Bool → Bool → CycleDecision
  | Vpn.tailscale, ts, ov =>
    if !ts && ov then
      { switchTarget := Option.some Vpn.openvpn, log := Option.some LogLevel.warn }
    else { switchTarget := Option.none, log := Option.none }
  | Vpn.openvpn, ts, ov =>
    if ts then
      { switchTarget := Option.some Vpn.tailscale, log := Option.some LogLevel.info }
    else if !ov then
      { switchTarget := Option.none, log := Option.some LogLevel.error }
    else { switchTarget := Option.none, log := Option.none }
  | Vpn.none, ts, ov =>
    if ts then
      { switchTarget := Option.some Vpn.tailscale, log := Option.some LogLevel.info }
    else if ov then
      { switchTarget := Option.some Vpn.openvpn, log := Option.some LogLevel.info }
    else { switchTarget := Option.none, log := Option.some LogLevel.warn }

/-- The backend active after a cycle whose switch (if any) succeeds: the
switch target when a switch is invoked, the unchanged current backend
otherwise. -/
def nextVpn (v : Vpn) (ts ov : Bool) : Vpn :=
  match (cycleDecision v ts ov).switchTarget with
  | Option.some t => t
  | Option.none => v

/-- Transcribed from the SPEC's section 4.4 transition table, "Action"
column (`ON_PRIMARY` = `Vpn.tailscale`, `ON_SECONDARY` = `Vpn.openvpn`,
`NONE` = `Vpn.none`): the backend the table orders a switch to. -/
def specAction : Vpn → Bool → Bool → Option Vpn
  | Vpn.none, true, _ => Option.some Vpn.tailscale
  | Vpn.none, false, true => Option.some Vpn.openvpn
  | Vpn.none, false, false => Option.none
  | Vpn.tailscale, true, _ => Option.none
  | Vpn.tailscale, false, true => Option.some Vpn.openvpn
  | Vpn.tailscale, false, false => Option.none
  | Vpn.openvpn, true, _ => Option.some Vpn.tailscale
  | Vpn.openvpn, false, true => Option.none
  | Vpn.openvpn, false, false => Option.none

/-- Transcribed from the SPEC's section 4.4 transition table, "Next state"
column. -/
def specNext : Vpn → Bool → Bool → Vpn
  | Vpn.none, true, _ => Vpn.tailscale
  | Vpn.none, false, true => Vpn.openvpn
  | Vpn.none, false, false => Vpn.none
  | Vpn.tailscale, true, _ => Vpn.tailscale
  | Vpn.tailscale, false, true => Vpn.openvpn
  | Vpn.tailscale, false, false => Vpn.tailscale
  | Vpn.openvpn, true, _ => Vpn.tailscale
  | Vpn.openvpn, _, _ => Vpn.openvpn

/-- Transcribed from the SPEC's section 4.4 table: the log ordered on the
rows where both backends are unreachable (`NONE`: "log warn", `ON_PRIMARY`:
"log error", `ON_SECONDARY`: "log error"). -/
def specLogBothDown : Vpn → LogLevel
  | Vpn.none => LogLevel.warn
  | Vpn.tailscale => LogLevel.error
  | Vpn.openvpn => LogLevel.error

/-- The log the CODE emits on the both-unreachable rows: as the spec table,
except that from `ON_PRIMARY` (`current_vpn == 'tailscale'`) nothing is
logged. -/
def amendedLogBothDown : Vpn → Option LogLevel
  | Vpn.none => Option.some LogLevel.warn
  | Vpn.tailscale => Option.none
  | Vpn.openvpn => Option.some LogLevel.error

/-- All command outcomes one loop iteration observes: the routing-table
read feeding `get_current_vpn` and the two probe environments. -/
structure MonitorEnv where
  routeTableRead : Option CmdResult
  tsProbe : ProbeEnv
  ovProbe : ProbeEnv
deriving Repr, DecidableEq

/-- One iteration of `monitor_loop` up to its decision: read the current
backend from the routing table, probe both interfaces, decide.  The decision
depends only on this cycle's environment — the loop keeps no in-memory
backend state between iterations. -/
def cycleOfEnv (e : MonitorEnv) : CycleDecision :=
  cycleDecision (get_current_vpn e.routeTableRead)
    (check_interface_connectivity e.tsProbe)
    (check_interface_connectivity e.ovProbe)

/-!  ### The loop boundary — `while self.running:` with its `except` clauses -/

/-- What the environment does to one cycle: whether a stop signal arrives
during the cycle (the signal handler clears `self.running`) and whether the
cycle body raises an `Exception` (probe, state read or switch failure). -/
structure CycleEnv where
  stop : Bool
  raisesErr : Bool
deriving Repr, DecidableEq

/-- The body of one loop iteration, as seen from the loop boundary: it either
completes or raises an `Exception` (carried as `Except.error`). -/
def cycleBody (e : CycleEnv) : Except String Unit :=
  if e.raisesErr then Except.error "Monitor error" else Except.ok ()

/-- How the loop exits within the observed fuel window. -/
inductive LoopExit
  | stopped
  | fuelOut
deriving Repr, DecidableEq

/-- Embedding of the `while self.running:` loop of `monitor_loop`: `fuel`
bounds the number of iterations observed; `envs i` is cycle `i`'s
environment.  The body's outcome is inspected and discarded — the
`except Exception` clause logs it and falls through to the next iteration —
and a stop signal clears the running flag, which the loop head tests next
time around. -/
def monitor_loop_aux : Nat → (Nat → CycleEnv) → Nat → Bool → LoopExit
  | 0, _, _, _ => LoopExit.fuelOut
  | Nat.succ fuel, envs, i, running =>
    if running then
      let outcome := cycleBody (envs i)
      let running2 :=
        match outcome with
        | Except.ok _ => running && !(envs i).stop
        | Except.error _ => running && !(envs i).stop
      monitor_loop_aux fuel envs (i + 1) running2
    else LoopExit.stopped

/-!  ### Configuration — `config.RouterConfig` and its `validate`  -/

/-- One dotted-quad octet, as accepted by Python's `ipaddress`: a non-empty
all-digit string with no leading zero, valued at most 255. -/
def parseOctet (p : String) : Option Nat :=
  if p.data.isEmpty then Option.none
  else if !p.data.all Char.isDigit then Option.none
  else if p.data.length > 1 && p.data.head? == Option.some '0' then Option.none
  else
    let v := digitsToNat p.data
    if v ≤ 255 then Option.some v else Option.none

/-- `ipaddress.IPv4Address` on a dotted-quad string, as the 32-bit numeric
value. -/
def parseIPv4 (s : String) : Option Nat :=
  match (splitOnChar s '.').map parseOctet with
  | [Option.some a, Option.some b, Option.some c, Option.some d] =>
    Option.some (a * 16777216 + b * 65536 + c * 256 + d)
  | _ => Option.none

/-- `ipaddress.IPv4Network(s, strict=False)` on an `addr/prefix` string (a
bare address is a `/32`): the masked network address and the prefix length.
`strict=False` silently masks host bits. -/
def parseIPv4Network (s : String) : Option (Nat × Nat) :=
  match splitOnChar s '/' with
  | [a] => (parseIPv4 a).map fun v => (v, 32)
  | [a, p] =>
    match parseIPv4 a with
    | Option.some v =>
      if p.data.isEmpty || !p.data.all Char.isDigit then Option.none
      else
        let pl := digitsToNat p.data
        if pl ≤ 32 then Option.some (v - v % 2 ^ (32 - pl), pl)
        else Option.none
    | Option.none => Option.none
  | _ => Option.none

/-- `ip in network` for `ipaddress`: the address masked to the prefix equals
the network address. -/
def inNetwork (ip : Nat) (np : Nat × Nat) : Bool :=
  ip - ip % 2 ^ (32 - np.2) == np.1

/-- `str(network)`: dotted-quad network address, slash, prefix length. -/
def networkToString (np : Nat × Nat) : String :=
  toString (np.1 / 16777216 % 256) ++ "." ++ toString (np.1 / 65536 % 256)
    ++ "." ++ toString (np.1 / 256 % 256) ++ "." ++ toString (np.1 % 256)
    ++ "/" ++ toString np.2

/-- The fields of `config.RouterConfig` that `validate` inspects, plus the
remaining identifiers (kept so the validated value is the whole
configuration). -/
structure RouterConfig where
  usb_network : String := "192.168.64.0/24"
  usb_ip : String := "192.168.64.1"
  usb_dhcp_start : String := "192.168.64.50"
  usb_dhcp_end : String := "192.168.64.150"
  wan_interface : String := "wlan0"
  usb_interface : String := "usb0"
  tailscaleIface : String := "tailscale0"
  openvpnIface : String := "tun0"
  use_tailscale_exit : Bool := false
  enable_vpn_failover : Bool := true
  dashboard_enabled : Bool := false
  dashboard_port : Nat := 8000
  dashboard_host : String := "0.0.0.0"
deriving Repr, DecidableEq

/-- The three `raise ValueError` sites of `RouterConfig.validate`, after the
wrapping `except` clauses: an unparsable client-subnet CIDR, any failure
inside the IP block (unparsable address, address out of the subnet, or DHCP
start not below DHCP end — all re-raised as "Invalid IP configuration"), and
an out-of-range dashboard port. -/
inductive ConfigError
  | invalidNetwork
  | invalidIPConfig
  | invalidPort
deriving Repr, DecidableEq

/-- Embedding of `RouterConfig.validate`, statement by statement: parse the
CIDR (normalising `usb_network` to `str(network)`), parse the three
addresses, check each is in the network, check `dhcp_start < dhcp_end`,
check the port range; the first failing check raises. -/
def validate (c : RouterConfig) : Except ConfigError RouterConfig :=
  match parseIPv4Network c.usb_network with
  | Option.none => Except.error ConfigError.invalidNetwork
  | Option.some np =>
    match parseIPv4 c.usb_ip, parseIPv4 c.usb_dhcp_start,
        parseIPv4 c.usb_dhcp_end with
    | Option.some ip, Option.some ds, Option.some de =>
      if !inNetwork ip np then Except.error ConfigError.invalidIPConfig
      else if !inNetwork ds np then Except.error ConfigError.invalidIPConfig
      else if !inNetwork de np then Except.error ConfigError.invalidIPConfig
      else if ds ≥ de then Except.error ConfigError.invalidIPConfig
      else if !(1 ≤ c.dashboard_port && c.dashboard_port ≤ 65535) then
        Except.error ConfigError.invalidPort
      else Except.ok { c with usb_network := networkToString np }
    | _, _, _ => Except.error ConfigError.invalidIPConfig

/-- Construction of a `RouterConfig`: `__post_init__` runs `validate`, so an
invalid configuration raises at construction time; the validated value is
never mutated afterwards anywhere in the package. -/
def mkRouterConfig (c : RouterConfig) : Except ConfigError RouterConfig :=
  validate c

/-- `true` iff construction raised. -/
def isErr (r : Except ConfigError RouterConfig) : Bool :=
  match r with
  | Except.error _ => true
  | Except.ok _ => false

/-!  ## Theorems  -/

/-- C1 counterexample: from `ON_PRIMARY` (`current_vpn == 'tailscale'`) with
both backends unreachable the code performs no switch and the state stays
`ON_PRIMARY`, but — against the spec table's "none (log error)" — nothing is
logged: the `current_vpn == 'tailscale'` branch has no clause for this
input. -/
theorem C1_counterexample :
    (cycleDecision Vpn.tailscale false false).switchTarget = Option.none ∧
    nextVpn Vpn.tailscale false false = Vpn.tailscale ∧
    (cycleDecision Vpn.tailscale false false).log ≠
      Option.some (specLogBothDown Vpn.tailscale) := by
  decide

/-- C1 (amended): for every state in `{NONE, ON_PRIMARY, ON_SECONDARY}` and
every reachability combination, one controller cycle produces exactly the
switch action and next state of the spec's section 4.4 table, and on the
both-unreachable rows it logs warn from `NONE` and error from `ON_SECONDARY`,
while from `ON_PRIMARY` it logs nothing. -/
theorem C1_transition_table (v : Vpn) (ts ov : Bool) :
    (cycleDecision v ts ov).switchTarget = specAction v ts ov ∧
    nextVpn v ts ov = specNext v ts ov ∧
    (ts = false → ov = false →
      (cycleDecision v ts ov).log = amendedLogBothDown v) := by
  revert v ts ov
  decide

/-- C1 witness: the amended table applied at the `NONE` /
both-unreachable row. -/
theorem C1_transition_table_witness :
    (cycleDecision Vpn.none false false).log = amendedLogBothDown Vpn.none :=
  (C1_transition_table Vpn.none false false).2.2 rfl rfl

/-- C5: a cycle's decision is a function of the freshly read
`current_vpn` (and the two probe results) only — `cycleOfEnv` reads the
routing table anew each call and the loop keeps no backend state between
iterations — and whenever a switch is invoked, its target differs from the
freshly read current backend. -/
theorem C5_switch_only_if_differs (e : MonitorEnv) (b : Vpn)
    (h : (cycleOfEnv e).switchTarget = Option.some b) :
    b ≠ get_current_vpn e.routeTableRead := by
  have key : ∀ (v : Vpn) (ts ov : Bool) (b2 : Vpn),
      (cycleDecision v ts ov).switchTarget = Option.some b2 → b2 ≠ v := by
    decide
  exact key (get_current_vpn e.routeTableRead)
    (check_interface_connectivity e.tsProbe)
    (check_interface_connectivity e.ovProbe) b h

/-- C5 witness: with no backend active and both probes up, the cycle switches
to Tailscale, which differs from the current backend `none`. -/
theorem C5_switch_only_if_differs_witness :
    Vpn.tailscale ≠ get_current_vpn
      (Option.some { returncode := 0, stdout := "default via 10.0.0.1 dev eth0" }) :=
  C5_switch_only_if_differs
    { routeTableRead :=
        Option.some { returncode := 0, stdout := "default via 10.0.0.1 dev eth0" },
      tsProbe :=
        { linkShow := Option.some 0, addrShow := Option.some "inet 100.64.0.1/32",
          ping := Option.some 0 },
      ovProbe :=
        { linkShow := Option.some 0, addrShow := Option.some "inet 10.8.0.2/24",
          ping := Option.some 0 } }
    Vpn.tailscale (by decide)

/-- C6: `get_current_vpn` maps a failed read to `'none'`, a non-zero return
code or empty listing (no default route) to `'none'`, a listing mentioning
the primary interface to `'tailscale'`, one mentioning the secondary but not
the primary to `'openvpn'`, and one mentioning neither to `'none'` — it never
raises, returning a `Vpn` value in every case. -/
theorem C6_current_backend_mapping :
    get_current_vpn Option.none = Vpn.none ∧
    (∀ r : CmdResult, r.returncode ≠ 0 →
      get_current_vpn (Option.some r) = Vpn.none) ∧
    (∀ r : CmdResult, r.stdout = "" →
      get_current_vpn (Option.some r) = Vpn.none) ∧
    (∀ r : CmdResult, r.returncode = 0 → r.stdout ≠ "" →
      strContains r.stdout tailscale_interface = true →
      get_current_vpn (Option.some r) = Vpn.tailscale) ∧
    (∀ r : CmdResult, r.returncode = 0 → r.stdout ≠ "" →
      strContains r.stdout tailscale_interface = false →
      strContains r.stdout openvpn_interface = true →
      get_current_vpn (Option.some r) = Vpn.openvpn) ∧
    (∀ r : CmdResult, strContains r.stdout tailscale_interface = false →
      strContains r.stdout openvpn_interface = false →
      get_current_vpn (Option.some r) = Vpn.none) := by
  refine ⟨rfl, ?_, ?_, ?_, ?_, ?_⟩
  · intro r h
    simp [get_current_vpn, h]
  · intro r h
    simp [get_current_vpn, h]
  · intro r h0 hne hts
    simp [get_current_vpn, h0, hne, hts]
  · intro r h0 hne hts hov
    simp [get_current_vpn, h0, hne, hts, hov]
  · intro r hts hov
    by_cases hc : (r.returncode == 0 && r.stdout != "") = true
    · simp [get_current_vpn, hc, hts, hov]
    · simp [get_current_vpn, hc]

/-- C6 witness: a successful listing through the secondary interface maps to
`'openvpn'`. -/
theorem C6_current_backend_mapping_witness :
    get_current_vpn
      (Option.some { returncode := 0, stdout := "default dev tun0 scope link" }) =
      Vpn.openvpn :=
  C6_current_backend_mapping.2.2.2.2.1
    { returncode := 0, stdout := "default dev tun0 scope link" }
    rfl (by decide) (by decide) (by decide)

/-- C10: `get_current_vpn` is a total function of the routing-table listing,
and the primary interface is matched first: any successful, non-empty listing
that mentions `tailscale0` yields `'tailscale'` — even if it also mentions
`tun0` — and `'openvpn'` is reported only when `tailscale0` does not occur in
the listing. -/
theorem C10_primary_matched_first :
    (∀ r : CmdResult, r.returncode = 0 → r.stdout ≠ "" →
      strContains r.stdout tailscale_interface = true →
      get_current_vpn (Option.some r) = Vpn.tailscale) ∧
    (∀ r : CmdResult, get_current_vpn (Option.some r) = Vpn.openvpn →
      strContains r.stdout tailscale_interface = false) := by
  constructor
  · intro r h0 hne hts
    simp [get_current_vpn, h0, hne, hts]
  · intro r h
    cases hts : strContains r.stdout tailscale_interface
    · rfl
    · exfalso
      by_cases hc : (r.returncode == 0 && r.stdout != "") = true
      · simp [get_current_vpn, hc, hts] at h
      · simp [get_current_vpn, hc] at h

/-- C10 witness: a listing mentioning both interfaces reports the primary. -/
theorem C10_primary_matched_first_witness :
    get_current_vpn
      (Option.some
        { returncode := 0,
          stdout := "default dev tailscale0\ndefault dev tun0" }) =
      Vpn.tailscale :=
  C10_primary_matched_first.1
    { returncode := 0, stdout := "default dev tailscale0\ndefault dev tun0" }
    rfl (by decide) (by decide)

/-- C4: the probe returns `false` — independently of the ping outcome, i.e.
without the reachability test deciding anything — when the interface does not
exist or its address listing lacks an `inet` address; it returns `false`
when `ip addr show` or the ping raises; and it returns `true` only when the
interface exists, has an address, and the bounded-timeout ping exits 0.
Being a total `Bool`-valued function of the command outcomes, it never
propagates an exception. -/
theorem C4_probe_fail_closed :
    (∀ (e : ProbeEnv) (p : Option Int), check_interface_exists e = false →
      check_interface_connectivity { e with ping := p } = false) ∧
    (∀ (e : ProbeEnv) (out : String) (p : Option Int),
      e.addrShow = Option.some out → strContains out "inet " = false →
      check_interface_connectivity { e with ping := p } = false) ∧
    (∀ e : ProbeEnv, e.addrShow = Option.none →
      check_interface_connectivity e = false) ∧
    (∀ e : ProbeEnv, e.ping = Option.none →
      check_interface_connectivity e = false) ∧
    (∀ e : ProbeEnv, check_interface_connectivity e = true →
      check_interface_exists e = true ∧
      (∃ out, e.addrShow = Option.some out ∧ strContains out "inet " = true) ∧
      e.ping = Option.some 0) := by
  refine ⟨?_, ?_, ?_, ?_, ?_⟩
  · intro e p h
    have h2 : check_interface_exists { e with ping := p } = false := h
    simp [check_interface_connectivity, h2]
  · intro e out p hout hinet
    by_cases hex : check_interface_exists { e with ping := p } = true
    · simp [check_interface_connectivity, hex, hout, hinet]
    · simp only [Bool.not_eq_true] at hex
      simp [check_interface_connectivity, hex]
  · intro e hnone
    by_cases hex : check_interface_exists e = true
    · simp [check_interface_connectivity, hex, hnone]
    · simp only [Bool.not_eq_true] at hex
      simp [check_interface_connectivity, hex]
  · intro e hnone
    by_cases hex : check_interface_exists e = true
    · cases haddr : e.addrShow with
      | none => simp [check_interface_connectivity, hex, haddr]
      | some out =>
        by_cases hinet : strContains out "inet " = true
        · simp [check_interface_connectivity, hex, haddr, hinet, hnone]
        · simp only [Bool.not_eq_true] at hinet
          simp [check_interface_connectivity, hex, haddr, hinet]
    · simp only [Bool.not_eq_true] at hex
      simp [check_interface_connectivity, hex]
  · intro e h
    by_cases hex : check_interface_exists e = true
    · cases haddr : e.addrShow with
      | none => simp [check_interface_connectivity, hex, haddr] at h
      | some out =>
        by_cases hinet : strContains out "inet " = true
        · cases hping : e.ping with
          | none => simp [check_interface_connectivity, hex, haddr, hinet, hping] at h
          | some rc =>
            simp [check_interface_connectivity, hex, haddr, hinet, hping] at h
            exact ⟨hex, ⟨out, rfl, hinet⟩, by rw [h]⟩
        · simp only [Bool.not_eq_true] at hinet
          simp [check_interface_connectivity, hex, haddr, hinet] at h
    · simp only [Bool.not_eq_true] at hex
      simp [check_interface_connectivity, hex] at h

/-- C4 witness: probing an interface whose `ip link show` exits non-zero
(nonexistent interface) yields `false`, whatever the ping would do. -/
theorem C4_probe_fail_closed_witness :
    check_interface_connectivity
      { linkShow := Option.some 1, addrShow := Option.some "inet 1.2.3.4/24",
        ping := Option.some 0 } = false :=
  C4_probe_fail_closed.1
    { linkShow := Option.some 1, addrShow := Option.some "inet 1.2.3.4/24",
      ping := Option.some 0 }
    (Option.some 0) rfl

/-- C8: the loop exits only through the running flag.  First conjunct: while
no stop signal arrives, the loop never reaches `stopped`, however many cycles
raise — errors are caught at the loop boundary and the loop proceeds.  Second
conjunct: the loop's control flow is entirely independent of which cycles
raise — two environments that agree on stop signals drive the loop
identically, whatever their error patterns. -/
theorem C8_loop_boundary :
    (∀ (fuel : Nat) (envs : Nat → CycleEnv) (i : Nat),
      (∀ j, (envs j).stop = false) →
      monitor_loop_aux fuel envs i true ≠ LoopExit.stopped) ∧
    (∀ (fuel : Nat) (envs envs2 : Nat → CycleEnv) (i : Nat) (r : Bool),
      (∀ j, (envs j).stop = (envs2 j).stop) →
      monitor_loop_aux fuel envs i r = monitor_loop_aux fuel envs2 i r) := by
  constructor
  · intro fuel
    induction fuel with
    | zero =>
      intro envs i hstop
      simp [monitor_loop_aux]
    | succ n ih =>
      intro envs i hstop
      have h1 : (envs i).stop = false := hstop i
      simp only [monitor_loop_aux, if_pos rfl]
      cases hb : cycleBody (envs i) with
      | ok u => simpa [h1] using ih envs (i + 1) hstop
      | error msg => simpa [h1] using ih envs (i + 1) hstop
  · intro fuel
    induction fuel with
    | zero =>
      intro envs envs2 i r hstop
      rfl
    | succ n ih =>
      intro envs envs2 i r hstop
      cases r with
      | false => rfl
      | true =>
        simp only [monitor_loop_aux, if_pos rfl]
        cases hb : cycleBody (envs i) <;> cases hb2 : cycleBody (envs2 i) <;>
          simp only [hstop i] <;> exact ih envs envs2 (i + 1) _ hstop

/-- C8 witness: three observed cycles, every one of them raising, with no
stop signal: the loop is still running (fuel exhausted, not stopped). -/
theorem C8_loop_boundary_witness :
    monitor_loop_aux 3 (fun _ => { stop := false, raisesErr := true }) 0 true ≠
      LoopExit.stopped :=
  C8_loop_boundary.1 3 (fun _ => { stop := false, raisesErr := true }) 0
    (fun _ => rfl)

/-- C2 counterexample: a fully successful `switch_to_tailscale` from a state
whose only masquerade rule is the OpenVPN one passes through an intermediate
NAT rule set with ZERO masquerade rules for the client subnet — the old rule
is deleted (line 114) before the new one is added (line 123), contradicting
the claimed install-before-remove ordering. -/
theorem C2_counterexample :
    [] ∈ switch_to_tailscale_natTrace
      { showDevOut := Option.some "", addRouteOk := true, natAddOk := true }
      { defaultRoute := Option.some { dev := openvpn_interface, via := Option.none },
        natRules := [openvpn_interface] } ∧
    (switch_to_tailscale
      { showDevOut := Option.some "", addRouteOk := true, natAddOk := true }
      { defaultRoute := Option.some { dev := openvpn_interface, via := Option.none },
        natRules := [openvpn_interface] }).1 = true := by
  decide

/-- C2 (amended): during every execution of `SwitchTo(backend)` whose steps
succeed and whose target rule is not already present, the masquerade rule on
the OTHER backend's interface is removed BEFORE the target interface's rule
is installed — the NAT trace is exactly `[initial, after-delete, after-add]`
— and when the prior rule set holds only the other backend's rule the trace
passes through an intermediate point with zero masquerade rules for the
client subnet. -/
theorem C2_remove_before_install :
    (∀ (env : SwitchEnv) (s : RoutingState) (out : String),
      env.showDevOut = Option.some out → env.addRouteOk = true →
      env.natAddOk = true →
      tailscale_interface ∉ s.natRules.erase openvpn_interface →
      switch_to_tailscale_natTrace env s =
        [s.natRules, s.natRules.erase openvpn_interface,
          s.natRules.erase openvpn_interface ++ [tailscale_interface]] ∧
      (s.natRules = [openvpn_interface] →
        [] ∈ switch_to_tailscale_natTrace env s)) ∧
    (∀ (env : SwitchEnv) (s : RoutingState),
      env.addRouteOk = true → env.natAddOk = true →
      openvpn_interface ∉ s.natRules.erase tailscale_interface →
      switch_to_openvpn_natTrace env s =
        [s.natRules, s.natRules.erase tailscale_interface,
          s.natRules.erase tailscale_interface ++ [openvpn_interface]] ∧
      (s.natRules = [tailscale_interface] →
        [] ∈ switch_to_openvpn_natTrace env s)) := by
  constructor
  · intro env s out hout har hnat hmem
    have htrace : switch_to_tailscale_natTrace env s =
        [s.natRules, s.natRules.erase openvpn_interface,
          s.natRules.erase openvpn_interface ++ [tailscale_interface]] := by
      simp [switch_to_tailscale_natTrace, hout, har, hnat, hmem]
    refine ⟨htrace, ?_⟩
    intro hrules
    rw [htrace, hrules]
    simp [List.erase_cons_head]
  · intro env s har hnat hmem
    have htrace : switch_to_openvpn_natTrace env s =
        [s.natRules, s.natRules.erase tailscale_interface,
          s.natRules.erase tailscale_interface ++ [openvpn_interface]] := by
      simp [switch_to_openvpn_natTrace, har, hnat, hmem]
    refine ⟨htrace, ?_⟩
    intro hrules
    rw [htrace, hrules]
    simp [List.erase_cons_head]

/-- C2 witness: the amended ordering at a concrete successful switch to
OpenVPN from a Tailscale-only NAT set. -/
theorem C2_remove_before_install_witness :
    switch_to_openvpn_natTrace
      { showDevOut := Option.some "", addRouteOk := true, natAddOk := true }
      { defaultRoute := Option.none, natRules := [tailscale_interface] } =
      [[tailscale_interface], [], [openvpn_interface]] ∧
    ([tailscale_interface] = [tailscale_interface] →
      [] ∈ switch_to_openvpn_natTrace
        { showDevOut := Option.some "", addRouteOk := true, natAddOk := true }
        { defaultRoute := Option.none, natRules := [tailscale_interface] }) := by
  have h := C2_remove_before_install.2
    { showDevOut := Option.some "", addRouteOk := true, natAddOk := true }
    { defaultRoute := Option.none, natRules := [tailscale_interface] }
    rfl rfl (by decide)
  simpa using h

/-- C3 counterexample: when `ip route show dev tailscale0` raises (the
interface has vanished) after the default route was already deleted,
`switch_to_tailscale` returns `False` but the RoutingState that held before
the call is NOT restored: the policy table is left with no default route
while the OpenVPN masquerade rule persists — exactly a NAT rule with no
matching route. -/
theorem C3_counterexample :
    (switch_to_tailscale
        { showDevOut := Option.none, addRouteOk := true, natAddOk := true }
        { defaultRoute :=
            Option.some { dev := openvpn_interface, via := Option.none },
          natRules := [openvpn_interface] }).1 = false ∧
    (switch_to_tailscale
        { showDevOut := Option.none, addRouteOk := true, natAddOk := true }
        { defaultRoute :=
            Option.some { dev := openvpn_interface, via := Option.none },
          natRules := [openvpn_interface] }).2 ≠
      { defaultRoute := Option.some { dev := openvpn_interface, via := Option.none },
        natRules := [openvpn_interface] } ∧
    (switch_to_tailscale
        { showDevOut := Option.none, addRouteOk := true, natAddOk := true }
        { defaultRoute :=
            Option.some { dev := openvpn_interface, via := Option.none },
          natRules := [openvpn_interface] }).2.defaultRoute = Option.none ∧
    (switch_to_tailscale
        { showDevOut := Option.none, addRouteOk := true, natAddOk := true }
        { defaultRoute :=
            Option.some { dev := openvpn_interface, via := Option.none },
          natRules := [openvpn_interface] }).2.natRules = [openvpn_interface] := by
  decide

/-- C3 (amended): if a step of `SwitchTo` fails, the operation aborts and
returns failure without raising, leaving the RoutingState as mutated up to
the failing step rather than restoring the prior state: either the default
route has been deleted with the NAT rules untouched, or the new default
route is installed with only the other backend's NAT rule removed. -/
theorem C3_abort_keeps_partial_state :
    (∀ (env : SwitchEnv) (s : RoutingState),
      (switch_to_tailscale env s).1 = false →
      ((switch_to_tailscale env s).2.defaultRoute = Option.none ∧
        (switch_to_tailscale env s).2.natRules = s.natRules) ∨
      (∃ g, (switch_to_tailscale env s).2.defaultRoute =
          Option.some { dev := tailscale_interface, via := g } ∧
        (switch_to_tailscale env s).2.natRules =
          s.natRules.erase openvpn_interface)) ∧
    (∀ (env : SwitchEnv) (s : RoutingState),
      (switch_to_openvpn env s).1 = false →
      ((switch_to_openvpn env s).2.defaultRoute = Option.none ∧
        (switch_to_openvpn env s).2.natRules = s.natRules) ∨
      ((switch_to_openvpn env s).2.defaultRoute =
          Option.some { dev := openvpn_interface, via := Option.none } ∧
        (switch_to_openvpn env s).2.natRules =
          s.natRules.erase tailscale_interface)) := by
  constructor
  · intro env s hfail
    cases hsd : env.showDevOut with
    | none =>
      left
      constructor <;> simp [switch_to_tailscale, hsd]
    | some out =>
      cases har : env.addRouteOk with
      | false =>
        left
        constructor <;> simp [switch_to_tailscale, hsd, har]
      | true =>
        by_cases hmem :
            tailscale_interface ∈ s.natRules.erase openvpn_interface
        · exfalso
          simp [switch_to_tailscale, hsd, har, hmem] at hfail
        · cases hna : env.natAddOk with
          | false =>
            right
            refine ⟨extractGateway out, ?_, ?_⟩ <;>
              simp [switch_to_tailscale, hsd, har, hmem, hna]
          | true =>
            exfalso
            simp [switch_to_tailscale, hsd, har, hmem, hna] at hfail
  · intro env s hfail
    cases har : env.addRouteOk with
    | false =>
      left
      constructor <;> simp [switch_to_openvpn, har]
    | true =>
      by_cases hmem :
          openvpn_interface ∈ s.natRules.erase tailscale_interface
      · exfalso
        simp [switch_to_openvpn, har, hmem] at hfail
      · cases hna : env.natAddOk with
        | false =>
          right
          constructor <;> simp [switch_to_openvpn, har, hmem, hna]
        | true =>
          exfalso
          simp [switch_to_openvpn, har, hmem, hna] at hfail

/-- C3 witness: the abort behaviour at the concrete failing read (route
already deleted, NAT untouched). -/
theorem C3_abort_keeps_partial_state_witness :
    ((switch_to_tailscale
        { showDevOut := Option.none, addRouteOk := true, natAddOk := true }
        { defaultRoute := Option.none, natRules := [openvpn_interface] }).2.defaultRoute =
        Option.none ∧
      (switch_to_tailscale
        { showDevOut := Option.none, addRouteOk := true, natAddOk := true }
        { defaultRoute := Option.none, natRules := [openvpn_interface] }).2.natRules =
        [openvpn_interface]) ∨
    (∃ g, (switch_to_tailscale
        { showDevOut := Option.none, addRouteOk := true, natAddOk := true }
        { defaultRoute := Option.none, natRules := [openvpn_interface] }).2.defaultRoute =
        Option.some { dev := tailscale_interface, via := g } ∧
      (switch_to_tailscale
        { showDevOut := Option.none, addRouteOk := true, natAddOk := true }
        { defaultRoute := Option.none, natRules := [openvpn_interface] }).2.natRules =
        [openvpn_interface].erase openvpn_interface) :=
  C3_abort_keeps_partial_state.1
    { showDevOut := Option.none, addRouteOk := true, natAddOk := true }
    { defaultRoute := Option.none, natRules := [openvpn_interface] }
    (by decide)

/-- An element whose multiplicity in `l` is at most one does not survive its
own erasure. -/
theorem count_le_one_not_mem_erase {a : String} {l : List String}
    (h : l.count a ≤ 1) : a ∉ l.erase a := by
  have h2 := List.count_erase_self a l
  have h3 : (l.erase a).count a = 0 := by omega
  exact List.count_eq_zero.mp h3

/-- C7 counterexample: from a state carrying TWO OpenVPN masquerade rules,
`switch_to_tailscale` twice does not equal `switch_to_tailscale` once —
`iptables -D` deletes a single rule instance per call, so the second
invocation keeps mutating the rule set. -/
theorem C7_counterexample :
    (switch_to_tailscale
        { showDevOut := Option.some "", addRouteOk := true, natAddOk := true }
        (switch_to_tailscale
          { showDevOut := Option.some "", addRouteOk := true, natAddOk := true }
          { defaultRoute := Option.none,
            natRules := [openvpn_interface, openvpn_interface] }).2).2 ≠
      (switch_to_tailscale
        { showDevOut := Option.some "", addRouteOk := true, natAddOk := true }
        { defaultRoute := Option.none,
          natRules := [openvpn_interface, openvpn_interface] }).2 := by
  decide

/-- C7 (amended): for every backend `X` and every starting RoutingState with
at most one masquerade rule on the OTHER backend's interface (in particular
every state satisfying the RoutingState invariant), invoking `SwitchTo(X)`
twice under the same command outcomes yields the same final RoutingState as
invoking it once: no duplicate masquerade rule and no duplicate default route
is created. -/
theorem C7_switch_idempotent :
    (∀ (env : SwitchEnv) (s : RoutingState),
      s.natRules.count openvpn_interface ≤ 1 →
      (switch_to_tailscale env (switch_to_tailscale env s).2).2 =
        (switch_to_tailscale env s).2) ∧
    (∀ (env : SwitchEnv) (s : RoutingState),
      s.natRules.count tailscale_interface ≤ 1 →
      (switch_to_openvpn env (switch_to_openvpn env s).2).2 =
        (switch_to_openvpn env s).2) := by
  constructor
  · intro env s hcount
    have hov : openvpn_interface ∉ s.natRules.erase openvpn_interface :=
      count_le_one_not_mem_erase hcount
    have hE : (s.natRules.erase openvpn_interface).erase openvpn_interface =
        s.natRules.erase openvpn_interface := List.erase_of_not_mem hov
    cases hsd : env.showDevOut with
    | none => simp [switch_to_tailscale, hsd]
    | some out =>
      cases har : env.addRouteOk with
      | false => simp [switch_to_tailscale, hsd, har]
      | true =>
        by_cases hts :
            tailscale_interface ∈ s.natRules.erase openvpn_interface
        · simp [switch_to_tailscale, hsd, har, hts, hE]
        · cases hna : env.natAddOk with
          | true =>
            have hneq : openvpn_interface ≠ tailscale_interface := by decide
            have hov2 : openvpn_interface ∉
                s.natRules.erase openvpn_interface ++ [tailscale_interface] := by
              simp [List.mem_append, hov, hneq]
            have hE2 : (s.natRules.erase openvpn_interface ++
                [tailscale_interface]).erase openvpn_interface =
                s.natRules.erase openvpn_interface ++ [tailscale_interface] :=
              List.erase_of_not_mem hov2
            have hts2 : tailscale_interface ∈
                s.natRules.erase openvpn_interface ++ [tailscale_interface] := by
              simp
            simp [switch_to_tailscale, hsd, har, hts, hna, hE2, hts2]
          | false =>
            simp [switch_to_tailscale, hsd, har, hts, hna, hE]
  · intro env s hcount
    have hts : tailscale_interface ∉ s.natRules.erase tailscale_interface :=
      count_le_one_not_mem_erase hcount
    have hE : (s.natRules.erase tailscale_interface).erase tailscale_interface =
        s.natRules.erase tailscale_interface := List.erase_of_not_mem hts
    cases har : env.addRouteOk with
    | false => simp [switch_to_openvpn, har]
    | true =>
      by_cases hov :
          openvpn_interface ∈ s.natRules.erase tailscale_interface
      · simp [switch_to_openvpn, har, hov, hE]
      · cases hna : env.natAddOk with
        | true =>
          have hneq : tailscale_interface ≠ openvpn_interface := by decide
          have hts2 : tailscale_interface ∉
              s.natRules.erase tailscale_interface ++ [openvpn_interface] := by
            simp [List.mem_append, hts, hneq]
          have hE2 : (s.natRules.erase tailscale_interface ++
              [openvpn_interface]).erase tailscale_interface =
              s.natRules.erase tailscale_interface ++ [openvpn_interface] :=
            List.erase_of_not_mem hts2
          have hov2 : openvpn_interface ∈
              s.natRules.erase tailscale_interface ++ [openvpn_interface] := by
            simp
          simp [switch_to_openvpn, har, hov, hna, hE2, hov2]
        | false =>
          simp [switch_to_openvpn, har, hov, hna, hE]

/-- C7 witness: idempotence at a concrete invariant-respecting state. -/
theorem C7_switch_idempotent_witness :
    (switch_to_tailscale
        { showDevOut := Option.some "100.100.1.1 dev tailscale0",
          addRouteOk := true, natAddOk := true }
        (switch_to_tailscale
          { showDevOut := Option.some "100.100.1.1 dev tailscale0",
            addRouteOk := true, natAddOk := true }
          { defaultRoute :=
              Option.some { dev := openvpn_interface, via := Option.none },
            natRules := [openvpn_interface] }).2).2 =
      (switch_to_tailscale
        { showDevOut := Option.some "100.100.1.1 dev tailscale0",
          addRouteOk := true, natAddOk := true }
        { defaultRoute :=
            Option.some { dev := openvpn_interface, via := Option.none },
          natRules := [openvpn_interface] }).2 :=
  C7_switch_idempotent.1
    { showDevOut := Option.some "100.100.1.1 dev tailscale0",
      addRouteOk := true, natAddOk := true }
    { defaultRoute := Option.some { dev := openvpn_interface, via := Option.none },
      natRules := [openvpn_interface] }
    (by decide)

/-- C9: constructing a `RouterConfig` (whose `__post_init__` runs
`validate`) raises at construction time when the client-subnet CIDR does not
parse, when the USB IP or a DHCP bound parses to an address outside the
subnet, when the DHCP start is not below the DHCP end, or when the dashboard
port is out of range; and a configuration passing every check is returned as
an immutable value, the input with the subnet normalised — nothing in the
package mutates it afterwards. -/
theorem C9_config_validation :
    (∀ c : RouterConfig, parseIPv4Network c.usb_network = Option.none →
      mkRouterConfig c = Except.error ConfigError.invalidNetwork) ∧
    (∀ (c : RouterConfig) (np : Nat × Nat) (ip ds de : Nat),
      parseIPv4Network c.usb_network = Option.some np →
      parseIPv4 c.usb_ip = Option.some ip →
      parseIPv4 c.usb_dhcp_start = Option.some ds →
      parseIPv4 c.usb_dhcp_end = Option.some de →
      (inNetwork ip np = false ∨ inNetwork ds np = false ∨
        inNetwork de np = false) →
      isErr (mkRouterConfig c) = true) ∧
    (∀ (c : RouterConfig) (ds de : Nat),
      parseIPv4 c.usb_dhcp_start = Option.some ds →
      parseIPv4 c.usb_dhcp_end = Option.some de → ds ≥ de →
      isErr (mkRouterConfig c) = true) ∧
    (∀ c : RouterConfig, ¬(1 ≤ c.dashboard_port ∧ c.dashboard_port ≤ 65535) →
      isErr (mkRouterConfig c) = true) ∧
    (∀ (c : RouterConfig) (np : Nat × Nat) (ip ds de : Nat),
      parseIPv4Network c.usb_network = Option.some np →
      parseIPv4 c.usb_ip = Option.some ip →
      parseIPv4 c.usb_dhcp_start = Option.some ds →
      parseIPv4 c.usb_dhcp_end = Option.some de →
      inNetwork ip np = true → inNetwork ds np = true →
      inNetwork de np = true → ds < de →
      1 ≤ c.dashboard_port → c.dashboard_port ≤ 65535 →
      mkRouterConfig c =
        Except.ok { c with usb_network := networkToString np }) := by
  refine ⟨?_, ?_, ?_, ?_, ?_⟩
  · intro c hnet
    simp [mkRouterConfig, validate, hnet]
  · intro c np ip ds de hnet hip hds hde hout
    rcases hout with h | h | h <;>
      simp [mkRouterConfig, validate, isErr, hnet, hip, hds, hde, h]
  · intro c ds de hds hde hge
    cases hnet : parseIPv4Network c.usb_network with
    | none => simp [mkRouterConfig, validate, isErr, hnet]
    | some np =>
      cases hip : parseIPv4 c.usb_ip with
      | none => simp [mkRouterConfig, validate, isErr, hnet, hip, hds, hde]
      | some ip =>
        simp only [mkRouterConfig, validate, hnet, hip, hds, hde]
        split
        · simp [isErr]
        · split
          · simp [isErr]
          · split
            · simp [isErr]
            · simp [isErr, hge]
  · intro c hport
    cases hnet : parseIPv4Network c.usb_network with
    | none => simp [mkRouterConfig, validate, isErr, hnet]
    | some np =>
      cases hip : parseIPv4 c.usb_ip with
      | none => simp [mkRouterConfig, validate, isErr, hnet, hip]
      | some ip =>
        cases hds : parseIPv4 c.usb_dhcp_start with
        | none => simp [mkRouterConfig, validate, isErr, hnet, hip, hds]
        | some ds =>
          cases hde : parseIPv4 c.usb_dhcp_end with
          | none => simp [mkRouterConfig, validate, isErr, hnet, hip, hds, hde]
          | some de =>
            have hp : (!(decide (1 ≤ c.dashboard_port) &&
                decide (c.dashboard_port ≤ 65535))) = true := by
              cases Nat.lt_or_ge c.dashboard_port 1 with
              | inl h => simp [Nat.not_le_of_lt h]
              | inr h1 =>
                have h2 : ¬ c.dashboard_port ≤ 65535 := fun h2 =>
                  hport ⟨h1, h2⟩
                simp [h1, h2]
            simp only [mkRouterConfig, validate, hnet, hip, hds, hde]
            split
            · simp [isErr]
            · split
              · simp [isErr]
              · split
                · simp [isErr]
                · split
                  · simp [isErr]
                  · simp [isErr, hp]
  · intro c np ip ds de hnet hip hds hde hipin hdsin hdein hlt hp1 hp2
    have hnge : ¬ ds ≥ de := by omega
    have hport : (!(1 ≤ c.dashboard_port && c.dashboard_port ≤ 65535)) = false := by
      simp [hp1, hp2]
    simp [mkRouterConfig, validate, hnet, hip, hds, hde, hipin, hdsin, hdein,
      hnge, hport]

/-- C9 witness: the package's default configuration passes validation and is
returned normalised, and a configuration with an unparsable CIDR is rejected
at construction. -/
theorem C9_config_validation_witness :
    mkRouterConfig { } =
      Except.ok
        { ({ } : RouterConfig) with
          usb_network := networkToString (3232251904, 24) } ∧
    mkRouterConfig { usb_network := "300.0.0.1/24" } =
      Except.error ConfigError.invalidNetwork := by
  constructor
  · exact C9_config_validation.2.2.2.2 { } (3232251904, 24) 3232251905
      3232251954 3232252054 (by decide) (by decide) (by decide) (by decide)
      (by decide) (by decide) (by decide) (by decide) (by decide) (by decide)
  · exact C9_config_validation.1 { usb_network := "300.0.0.1/24" } (by decide)

end UsbVpnRouter
